import Mathlib

/-!
Verification of the SQL-generation, row-conversion, paging, cancellation and
connection-retry layer of the pip-services3-mysql-gox repository.

The Go source is shallowly embedded: Go strings become Lean `String`s, Go maps
iterated once become association lists (the iteration order is the list order),
the `database/sql` driver becomes abstract functions from query strings to
results, fallible calls return `Except`, and multi-step connect logic becomes
structural recursion on the remaining retry budget.
-/

/- ## String helpers (persistence/MysqlPersistence) -/

/-- The backquote character (Go literal 0x60) used for MySQL identifier quoting. -/
def backtickChar : Char := Char.ofNat 96

/-- Embeds `MysqlPersistence.QuoteIdentifier`: returns `""` unchanged, returns a
string whose first byte is a backquote unchanged, and wraps any other string in
backquotes.  Go tests `value[0]` (the first byte); by UTF-8 self-synchronization
the first byte is 0x60 exactly when the first character is a backquote, so the
embedding matches on the head of the character list. -/
def QuoteIdentifier (value : String) : String :=
  match value.data with
  | [] => value
  | c :: _ => if c = backtickChar then value else "`" ++ value ++ "`"

/-- Embeds `MysqlPersistence.QuotedTableName`: quotes `schema`.`table` when a
schema name is configured, otherwise just the table name. -/
def QuotedTableName (schemaName tableName : String) : String :=
  if 0 < schemaName.length then
    QuoteIdentifier schemaName ++ "." ++ QuoteIdentifier tableName
  else
    QuoteIdentifier tableName

/-- Embeds the `strings.Builder` loop of `MysqlPersistence.GenerateColumns`:
a comma is written whenever the builder is non-empty, then the quoted column. -/
def generateColumnsLoop : String → List String → String
  | builder, [] => builder
  | builder, item :: rest =>
      generateColumnsLoop
        ((if builder ≠ "" then builder ++ "," else builder) ++ QuoteIdentifier item) rest

/-- Embeds `MysqlPersistence.GenerateColumns`. -/
def GenerateColumns (columns : List String) : String :=
  if columns.length = 0 then "" else generateColumnsLoop "" columns

/-- Embeds the loop of `MysqlPersistence.GenerateParameters`
(`for index := 1; index <= valuesCount; index++`), recursing on the number of
iterations left. -/
def generateParametersLoop : String → Nat → String
  | builder, 0 => builder
  | builder, n + 1 =>
      generateParametersLoop ((if builder ≠ "" then builder ++ "," else builder) ++ "?") n

/-- Embeds `MysqlPersistence.GenerateParameters` (Go `int` argument becomes `Int`). -/
def GenerateParameters (valuesCount : Int) : String :=
  if valuesCount ≤ 0 then "" else generateParametersLoop "" valuesCount.toNat

/-- Embeds the loop of `MysqlPersistence.GenerateSetParameters`. -/
def generateSetParametersLoop : String → List String → String
  | buf, [] => buf
  | buf, col :: rest =>
      generateSetParametersLoop
        ((if buf ≠ "" then buf ++ "," else buf) ++ (QuoteIdentifier col ++ "=?")) rest

/-- Embeds `MysqlPersistence.GenerateSetParameters`. -/
def GenerateSetParameters (columns : List String) : String :=
  if columns.length = 0 then "" else generateSetParametersLoop "" columns

/-- Embeds `MysqlPersistence.GenerateColumnsAndValues`: one pass over the object
map (modelled as an association list) collecting keys and values in step;
`nil, nil` for an empty map becomes the pair of empty lists. -/
def GenerateColumnsAndValues {V : Type} (objMap : List (String × V)) :
    List String × List V :=
  if objMap.length = 0 then ([], [])
  else (objMap.map Prod.fst, objMap.map Prod.snd)

/- ## Spec-side comma join (refinement target for claim C2)

`specCommaJoin` is written from the spec's words, not from the Go source: the
generator clauses of C2 say the pieces are "joined by commas". -/

/-- Tail of a comma join: every further piece is preceded by one comma. -/
def specCommaTail : List String → String
  | [] => ""
  | piece :: rest => "," ++ piece ++ specCommaTail rest

/-- Pieces joined by commas, following the spec's words for claim C2. -/
def specCommaJoin : List String → String
  | [] => ""
  | piece :: rest => piece ++ specCommaTail rest

/- ## Basic string facts -/

lemma str_eq_empty_iff (s : String) : s = "" ↔ s.data = [] := by
  constructor
  · intro h; rw [h]
  · intro h
    apply String.ext
    rw [h]

lemma append_ne_empty_left {s t : String} (h : s ≠ "") : s ++ t ≠ "" := by
  intro hc
  rw [str_eq_empty_iff, String.data_append, List.append_eq_nil] at hc
  exact h ((str_eq_empty_iff s).mpr hc.1)

lemma str_append_assoc (a b c : String) : a ++ b ++ c = a ++ (b ++ c) := by
  apply String.ext
  simp [String.data_append, List.append_assoc]

/-- A quoted identifier is empty exactly when the identifier is empty. -/
lemma quoteIdentifier_ne_empty {s : String} (h : s ≠ "") : QuoteIdentifier s ≠ "" := by
  unfold QuoteIdentifier
  rcases hd : s.data with - | ⟨c, l⟩
  · exact absurd ((str_eq_empty_iff s).mpr hd) h
  · by_cases hb : c = backtickChar
    · simp only [hb, if_pos rfl]; exact h
    · simp only [if_neg hb]
      exact append_ne_empty_left (append_ne_empty_left (by decide))

lemma append_ne_empty_right {s t : String} (h : t ≠ "") : s ++ t ≠ "" := by
  intro hc
  rw [str_eq_empty_iff, String.data_append, List.append_eq_nil] at hc
  exact h ((str_eq_empty_iff t).mpr hc.2)

/-- Once the builder is non-empty, the columns loop emits one comma before each
remaining piece. -/
lemma generateColumnsLoop_tail (l : List String) :
    ∀ b, b ≠ "" →
      generateColumnsLoop b l = b ++ specCommaTail (l.map QuoteIdentifier) := by
  induction l with
  | nil => intro b _; simp [generateColumnsLoop, specCommaTail]
  | cons x xs ih =>
    intro b hb
    have hb2 : (b ++ ",") ++ QuoteIdentifier x ≠ "" :=
      append_ne_empty_left (append_ne_empty_left hb)
    simp only [generateColumnsLoop, if_pos hb]
    rw [ih _ hb2]
    simp only [List.map_cons, specCommaTail]
    apply String.ext
    simp [List.append_assoc]

/-- Once the builder is non-empty, the set-parameters loop emits one comma
before each remaining `column=?` piece. -/
lemma generateSetParametersLoop_tail (l : List String) :
    ∀ b, b ≠ "" →
      generateSetParametersLoop b l
        = b ++ specCommaTail (l.map (fun c => QuoteIdentifier c ++ "=?")) := by
  induction l with
  | nil => intro b _; simp [generateSetParametersLoop, specCommaTail]
  | cons x xs ih =>
    intro b hb
    have hb2 : (b ++ ",") ++ (QuoteIdentifier x ++ "=?") ≠ "" :=
      append_ne_empty_left (append_ne_empty_left hb)
    simp only [generateSetParametersLoop, if_pos hb]
    rw [ih _ hb2]
    simp only [List.map_cons, specCommaTail]
    apply String.ext
    simp [List.append_assoc]

/-- Once the builder is non-empty, the parameters loop emits one comma before
each remaining `?`. -/
lemma generateParametersLoop_tail (n : Nat) :
    ∀ b, b ≠ "" →
      generateParametersLoop b n = b ++ specCommaTail (List.replicate n "?") := by
  induction n with
  | zero => intro b _; simp [generateParametersLoop, specCommaTail]
  | succ n ih =>
    intro b hb
    have hb2 : (b ++ ",") ++ "?" ≠ "" :=
      append_ne_empty_left (append_ne_empty_left hb)
    simp only [generateParametersLoop, if_pos hb]
    rw [ih _ hb2]
    simp only [List.replicate, specCommaTail]
    apply String.ext
    simp [List.append_assoc]

/-- `GenerateSetParameters` is exactly the comma join of the quoted names each
suffixed with `=?` (the pieces are never empty, so no comma is ever swallowed). -/
lemma generateSetParameters_eq_specJoin (columns : List String) :
    GenerateSetParameters columns
      = specCommaJoin (columns.map (fun c => QuoteIdentifier c ++ "=?")) := by
  cases columns with
  | nil => rfl
  | cons x xs =>
    have hpiece : QuoteIdentifier x ++ "=?" ≠ "" := append_ne_empty_right (by decide)
    have h2 : GenerateSetParameters (x :: xs) = generateSetParametersLoop "" (x :: xs) := by
      simp [GenerateSetParameters]
    have h1 : generateSetParametersLoop "" (x :: xs)
        = generateSetParametersLoop (QuoteIdentifier x ++ "=?") xs := by
      simp [generateSetParametersLoop]
    rw [h2, h1, generateSetParametersLoop_tail xs _ hpiece]
    simp [specCommaJoin]

/-- `GenerateParameters` of a positive count is exactly the comma join of that
many `?` pieces. -/
lemma generateParameters_eq_specJoin (n : Int) (h : 0 < n) :
    GenerateParameters n = specCommaJoin (List.replicate n.toNat "?") := by
  have hn : ¬ n ≤ 0 := by omega
  have hx : ∃ m : Nat, n.toNat = m + 1 := by
    refine ⟨n.toNat - 1, ?_⟩
    omega
  obtain ⟨m, hm⟩ := hx
  have h2 : GenerateParameters n = generateParametersLoop "" (m + 1) := by
    simp [GenerateParameters, if_neg hn, hm]
  have h1 : generateParametersLoop "" (m + 1) = generateParametersLoop "?" m := by
    simp [generateParametersLoop]
  rw [h2, h1, generateParametersLoop_tail m _ (by decide), hm]
  simp [List.replicate, specCommaJoin]

/-- `GenerateColumns` on non-empty column names is exactly the comma join of the
quoted names. -/
lemma generateColumns_eq_specJoin (columns : List String)
    (h : ∀ c ∈ columns, c ≠ "") :
    GenerateColumns columns = specCommaJoin (columns.map QuoteIdentifier) := by
  cases columns with
  | nil => rfl
  | cons x xs =>
    have hpiece : QuoteIdentifier x ≠ "" :=
      quoteIdentifier_ne_empty (h x (List.mem_cons_self x xs))
    have h2 : GenerateColumns (x :: xs) = generateColumnsLoop "" (x :: xs) := by
      simp [GenerateColumns]
    have h1 : generateColumnsLoop "" (x :: xs) = generateColumnsLoop (QuoteIdentifier x) xs := by
      simp [generateColumnsLoop]
    rw [h2, h1, generateColumnsLoop_tail xs _ hpiece]
    simp [specCommaJoin]

/-- How `QuoteIdentifier` acts on a string with a known first character. -/
lemma quoteIdentifier_of_head (v : String) (c : Char) (l : List Char)
    (hd : v.data = c :: l) :
    QuoteIdentifier v = if c = backtickChar then v else "`" ++ v ++ "`" := by
  unfold QuoteIdentifier
  rw [hd]

/-- `QuoteIdentifier` leaves the empty string unchanged. -/
lemma quoteIdentifier_of_nil (v : String) (hd : v.data = []) :
    QuoteIdentifier v = v := by
  unfold QuoteIdentifier
  rw [hd]

lemma data_backtick_lit : ("`" : String).data = [backtickChar] := by decide

/-- The wrapped form starts with a backquote, so quoting it again is the identity. -/
lemma quoteIdentifier_wrap (v : String) :
    QuoteIdentifier ("`" ++ v ++ "`") = "`" ++ v ++ "`" := by
  have hd : ("`" ++ v ++ "`").data = backtickChar :: (v.data ++ [backtickChar]) := by
    rw [String.data_append, String.data_append, data_backtick_lit]
    simp
  rw [quoteIdentifier_of_head _ _ _ hd, if_pos rfl]

/-- C10: `QuoteIdentifier` is idempotent: it returns the empty string unchanged,
returns any string whose first character is a backquote unchanged, wraps every
other string in backquotes, and applying it twice yields the same result as
applying it once. -/
theorem c10_quoteIdentifier_idempotent (v : String) :
    QuoteIdentifier (QuoteIdentifier v) = QuoteIdentifier v ∧
    QuoteIdentifier "" = "" ∧
    (∀ c l, v.data = c :: l → c = backtickChar → QuoteIdentifier v = v) ∧
    (∀ c l, v.data = c :: l → c ≠ backtickChar →
      QuoteIdentifier v = "`" ++ v ++ "`") := by
  refine ⟨?_, rfl, ?_, ?_⟩
  · rcases hd : v.data with - | ⟨c, l⟩
    · rw [quoteIdentifier_of_nil v hd, quoteIdentifier_of_nil v hd]
    · by_cases hb : c = backtickChar
      · rw [quoteIdentifier_of_head v c l hd, if_pos hb,
          quoteIdentifier_of_head v c l hd, if_pos hb]
      · rw [quoteIdentifier_of_head v c l hd, if_neg hb, quoteIdentifier_wrap]
  · intro c l hd hb
    rw [quoteIdentifier_of_head v c l hd, if_pos hb]
  · intro c l hd hb
    rw [quoteIdentifier_of_head v c l hd, if_neg hb]

/-- Witness for C10 at concrete inputs: quoting `abc` twice equals quoting it
once, and a string already starting with a backquote is left unchanged. -/
theorem c10_quoteIdentifier_idempotent_witness :
    QuoteIdentifier (QuoteIdentifier "abc") = QuoteIdentifier "abc" ∧
    QuoteIdentifier "`x`" = "`x`" := by
  refine ⟨(c10_quoteIdentifier_idempotent "abc").1, ?_⟩
  exact (c10_quoteIdentifier_idempotent "`x`").2.2.1 backtickChar
    (String.data "x`") (by decide) rfl

/-- C2 counterexample: with an empty first column name the comma that the spec's
"joined by commas" demands is swallowed, because the builder is still empty when
the second column is written: `GenerateColumns ["", "a"]` gives "\x60a\x60"
whereas the backquote-quoted names joined by commas give ",\x60a\x60". -/
theorem c2_generators_counterexample :
    GenerateColumns ["", "a"] = "`a`" ∧
    specCommaJoin (List.map QuoteIdentifier ["", "a"]) = ",`a`" ∧
    GenerateColumns ["", "a"] ≠ specCommaJoin (List.map QuoteIdentifier ["", "a"]) := by
  exact ⟨by decide, by decide, by decide⟩

/-- C2 (amended): when no column name is the empty string, `GenerateColumns`
is the quoted names joined by commas; `GenerateSetParameters` is, for every
list, the quoted names suffixed with `=?` joined by commas (the `=?` suffix
keeps every piece non-empty, so no comma is ever swallowed there);
`GenerateParameters n` is `n` question marks joined by commas for positive `n`;
and each generator returns the empty string on an empty list or non-positive
count. -/
theorem c2_generators_amended (columns : List String) (n : Int) :
    ((∀ c ∈ columns, c ≠ "") →
      GenerateColumns columns = specCommaJoin (columns.map QuoteIdentifier)) ∧
    GenerateSetParameters columns
      = specCommaJoin (columns.map (fun c => QuoteIdentifier c ++ "=?")) ∧
    (0 < n → GenerateParameters n = specCommaJoin (List.replicate n.toNat "?")) ∧
    GenerateColumns [] = "" ∧
    GenerateSetParameters [] = "" ∧
    (n ≤ 0 → GenerateParameters n = "") := by
  refine ⟨fun hne => generateColumns_eq_specJoin columns hne,
    generateSetParameters_eq_specJoin columns, ?_, rfl, rfl, ?_⟩
  · intro h
    exact generateParameters_eq_specJoin n h
  · intro h
    simp [GenerateParameters, if_pos h]

/-- Witness for C2 (amended): non-empty names for the columns clause, an
empty-name list for the unconditional set-parameters clause, and counts 2
and -1. -/
theorem c2_generators_amended_witness :
    GenerateColumns ["id", "key"]
      = specCommaJoin (List.map QuoteIdentifier ["id", "key"]) ∧
    GenerateSetParameters ["", "a"]
      = specCommaJoin (List.map (fun c => QuoteIdentifier c ++ "=?") ["", "a"]) ∧
    GenerateParameters 2 = specCommaJoin (List.replicate (2 : Int).toNat "?") ∧
    GenerateParameters (-1) = "" := by
  have h1 := c2_generators_amended ["id", "key"] 2
  have h2 := c2_generators_amended ["", "a"] (-1)
  exact ⟨h1.1 (by decide), h2.2.1, h1.2.2.1 (by decide), h2.2.2.2.2.2 (by decide)⟩

/- ## The Set upsert statement (IdentifiableMysqlPersistence.Set) -/

/-- A statement handed to the driver: the SQL text and the argument slice. -/
structure SetStatement (V : Type) where
  query : String
  args : List V

/-- Embeds the statement-building part of `IdentifiableMysqlPersistence.Set`
(the steps after `ConvertFromPublic` and id generation): generate columns and
values from the object map, the `?` parameters for `len(values)`, the quoted
column list, the `column=?` set parameters, duplicate the values, and build
`INSERT INTO t (cols) VALUES (params) ON DUPLICATE KEY UPDATE setParams`. -/
def mysqlSetStatement {V : Type} (schemaName tableName : String)
    (objMap : List (String × V)) : SetStatement V :=
  let cv := GenerateColumnsAndValues objMap
  let paramsStr := GenerateParameters ((cv.2.length : Nat) : Int)
  let columnsStr := GenerateColumns cv.1
  let setParams := GenerateSetParameters cv.1
  ⟨"INSERT INTO " ++ QuotedTableName schemaName tableName ++ " (" ++ columnsStr
      ++ ") VALUES (" ++ paramsStr ++ ")" ++ " ON DUPLICATE KEY UPDATE " ++ setParams,
   cv.2 ++ cv.2⟩

lemma generateColumnsAndValues_eq {V : Type} (objMap : List (String × V)) :
    GenerateColumnsAndValues objMap = (objMap.map Prod.fst, objMap.map Prod.snd) := by
  unfold GenerateColumnsAndValues
  by_cases h : objMap.length = 0
  · have hnil : objMap = [] := List.length_eq_zero.mp h
    subst hnil; simp
  · simp [h]

/-- `GenerateParameters` of a non-negative count: the comma join of that many
question marks (also for count 0, where both sides are empty). -/
lemma generateParameters_natCast (n : Nat) :
    GenerateParameters (n : Int) = specCommaJoin (List.replicate n "?") := by
  cases n with
  | zero => rfl
  | succ m =>
    have h : (0 : Int) < ((m + 1 : Nat) : Int) := by positivity
    rw [generateParameters_eq_specJoin _ h]
    simp

/-- C1: for an object map with `n` columns, `Set` builds the single upsert
statement whose VALUES list is exactly `n` question marks joined by commas,
whose `ON DUPLICATE KEY UPDATE` clause is exactly the `n` quoted columns each
followed by `=?` joined by commas in map order, and whose argument slice is the
`n` column values duplicated to length `2n`, first copy then second copy in the
same per-column order. -/
theorem c1_set_upsert_statement {V : Type} (schemaName tableName : String)
    (objMap : List (String × V)) :
    (mysqlSetStatement schemaName tableName objMap).query
      = "INSERT INTO " ++ QuotedTableName schemaName tableName ++ " ("
        ++ GenerateColumns (objMap.map Prod.fst) ++ ") VALUES ("
        ++ GenerateParameters (objMap.length : Int)
        ++ ") ON DUPLICATE KEY UPDATE "
        ++ GenerateSetParameters (objMap.map Prod.fst) ∧
    GenerateParameters (objMap.length : Int)
      = specCommaJoin (List.replicate objMap.length "?") ∧
    GenerateSetParameters (objMap.map Prod.fst)
      = specCommaJoin (objMap.map (fun kv => QuoteIdentifier kv.1 ++ "=?")) ∧
    (mysqlSetStatement schemaName tableName objMap).args
      = objMap.map Prod.snd ++ objMap.map Prod.snd ∧
    (mysqlSetStatement schemaName tableName objMap).args.length
      = 2 * objMap.length ∧
    (mysqlSetStatement schemaName tableName objMap).args.take objMap.length
      = objMap.map Prod.snd ∧
    (mysqlSetStatement schemaName tableName objMap).args.drop objMap.length
      = objMap.map Prod.snd := by
  have hcv := generateColumnsAndValues_eq objMap
  refine ⟨?_, generateParameters_natCast objMap.length, ?_, ?_, ?_, ?_, ?_⟩
  · unfold mysqlSetStatement
    rw [hcv]
    simp only [List.length_map]
    apply String.ext
    simp [List.append_assoc]
  · rw [generateSetParameters_eq_specJoin, List.map_map]
    rfl
  · unfold mysqlSetStatement
    rw [hcv]
  · unfold mysqlSetStatement
    rw [hcv]
    simp [List.length_append, List.length_map]
    omega
  · unfold mysqlSetStatement
    rw [hcv]
    simp only []
    rw [show objMap.length = (objMap.map Prod.snd).length by simp]
    exact List.take_left _ _
  · unfold mysqlSetStatement
    rw [hcv]
    simp only []
    rw [show objMap.length = (objMap.map Prod.snd).length by simp]
    exact List.drop_left _ _

/- ## JSON-mediated row and object conversion
(MysqlPersistence.ConvertToPublic / ConvertFromPublic) -/

/-- The observable behaviour of a positioned `sql.Rows` cursor: the column
names (`rows.Columns()`), the raw bytes scanned for each column (`rows.Scan`,
one string per column), and the deferred iteration error (`rows.Err()`). -/
structure SqlRowsView where
  columnsResult : Except String (List String)
  scanResult : Except String (List String)
  rowsErr : Option String

/-- Embeds `MysqlPersistence.ConvertToPublic` over abstract JSON engines: read
the column names, scan the raw values, pair them into a column-name-to-string
map, serialize the map to JSON (`JsonConverter.ToJson`) and deserialize the
JSON into the item type (`JsonConvertor.FromJson`), returning the first
failure. -/
def ConvertToPublic {T : Type}
    (mapToJson : List (String × String) → Except String String)
    (itemFromJson : String → Except String T) (rows : SqlRowsView) :
    Except String T :=
  match rows.columnsResult with
  | .error e => .error e
  | .ok columns =>
    match rows.scanResult with
    | .error e => .error e
    | .ok values =>
      let mapItem := columns.zip values
      match rows.rowsErr with
      | some e => .error e
      | none =>
        match mapToJson mapItem with
        | .error e => .error e
        | .ok jsonBuf => itemFromJson jsonBuf

/-- Embeds `MysqlPersistence.ConvertFromPublic`: serialize the item to JSON
(`JsonConverter.ToJson`) and parse the JSON back into a string-keyed map
(`JsonMapConvertor.FromJson`). -/
def ConvertFromPublic {T M : Type} (itemToJson : T → Except String String)
    (mapFromJson : String → Except String M) (value : T) : Except String M :=
  match itemToJson value with
  | .error e => .error e
  | .ok buf => mapFromJson buf

/-- C3: row and object conversion is JSON-mediated. `ConvertToPublic` is the
monadic composition of reading the columns, scanning them into a
column-name-to-raw-string map, serializing that map to JSON and deserializing
into the item type; it succeeds exactly when every one of those steps succeeds.
`ConvertFromPublic` is the composition of serializing the item to JSON and
parsing the JSON back into a string-keyed map. -/
theorem c3_conversion_json_mediated {T M : Type}
    (mapToJson : List (String × String) → Except String String)
    (itemFromJson : String → Except String T)
    (itemToJson : T → Except String String)
    (mapFromJson : String → Except String M)
    (rows : SqlRowsView) (value : T) :
    ConvertToPublic mapToJson itemFromJson rows
      = (rows.columnsResult.bind fun columns =>
          rows.scanResult.bind fun values =>
            (match rows.rowsErr with
              | some e => Except.error e
              | none => Except.ok ()).bind fun _ =>
              (mapToJson (columns.zip values)).bind itemFromJson) ∧
    ((ConvertToPublic mapToJson itemFromJson rows).isOk = true ↔
      ∃ columns values jsonBuf,
        rows.columnsResult = .ok columns ∧
        rows.scanResult = .ok values ∧
        rows.rowsErr = none ∧
        mapToJson (columns.zip values) = .ok jsonBuf ∧
        (itemFromJson jsonBuf).isOk = true) ∧
    ConvertFromPublic itemToJson mapFromJson value
      = (itemToJson value).bind mapFromJson := by
  rcases rows with ⟨cr, sr, re⟩
  refine ⟨?_, ?_, ?_⟩
  · cases cr with
    | error e => simp [ConvertToPublic, Except.bind]
    | ok columns =>
      cases sr with
      | error e => simp [ConvertToPublic, Except.bind]
      | ok values =>
        cases re with
        | some e => simp [ConvertToPublic, Except.bind]
        | none =>
          cases hm : mapToJson (columns.zip values) with
          | error e => simp [ConvertToPublic, Except.bind, hm]
          | ok buf => simp [ConvertToPublic, Except.bind, hm]
  · cases cr with
    | error e => simp [ConvertToPublic, Except.isOk, Except.toBool]
    | ok columns =>
      cases sr with
      | error e => simp [ConvertToPublic, Except.isOk, Except.toBool]
      | ok values =>
        cases re with
        | some e => simp [ConvertToPublic, Except.isOk, Except.toBool]
        | none =>
          cases hm : mapToJson (columns.zip values) with
          | error e => simp [ConvertToPublic, Except.isOk, Except.toBool, hm]
          | ok buf => simp [ConvertToPublic, hm]
  · cases hj : itemToJson value with
    | error e => simp [ConvertFromPublic, Except.bind, hj]
    | ok buf => simp [ConvertFromPublic, Except.bind, hj]

/- ## Abstract driver client, errors, and retrieval operations -/

/-- Result of a successful `QueryContext` call: the rows the cursor will yield
in order, and the deferred `rows.Err()` value. -/
structure QueryRows (R : Type) where
  rows : List R
  rowsErr : Option String
deriving DecidableEq

/-- An error returned by an operation of this component: either an underlying
error forwarded unchanged (driver, scan or conversion error), or an error the
component built itself (a pip-services application error with code, message,
correlation id and optional cause; plain `errors.New` errors are modelled with
empty code and correlation id). -/
inductive PersistenceError where
  | forwarded (msg : String)
  | built (code message correlationId : String) (cause : Option String)
deriving DecidableEq

/-- The error built by `cerr.NewError("query terminated").WithCorrelationId`
(the commons factory gives plain errors the code UNKNOWN). -/
def queryTerminatedError (correlationId : String) : PersistenceError :=
  .built "UNKNOWN" "query terminated" correlationId none

/-- Embeds the shared `for rows.Next()` conversion loop of `GetListByIds`,
`GetPageByFilter` and `GetListByFilter`: before converting each row the loop
checks `IsTerminated` and stops with the "query terminated" error; a conversion
error is returned as-is. -/
def convertRowsLoop {R T : Type} (convert : R → Except String T)
    (terminated : Bool) (correlationId : String) :
    List R → List T → Except PersistenceError (List T)
  | [], items => .ok items
  | r :: rest, items =>
    if terminated then .error (queryTerminatedError correlationId)
    else
      match convert r with
      | .error e => .error (.forwarded e)
      | .ok item => convertRowsLoop convert terminated correlationId rest (items ++ [item])

/-- The query built by `IdentifiableMysqlPersistence.GetListByIds`. -/
def getListByIdsQuery (schemaName tableName : String) (idsCount : Nat) : String :=
  "SELECT * FROM " ++ QuotedTableName schemaName tableName ++ " WHERE id IN("
    ++ GenerateParameters (idsCount : Int) ++ ")"

/-- Embeds `IdentifiableMysqlPersistence.GetListByIds`: query by the id list,
iterate converting rows (observing termination), then surface `rows.Err()`. -/
def GetListByIds {R T K : Type} (client : String → Except String (QueryRows R))
    (convert : R → Except String T) (terminated : Bool)
    (correlationId schemaName tableName : String) (ids : List K) :
    Except PersistenceError (List T) :=
  match client (getListByIdsQuery schemaName tableName ids.length) with
  | .error e => .error (.forwarded e)
  | .ok qr =>
    match convertRowsLoop convert terminated correlationId qr.rows [] with
    | .error e => .error e
    | .ok items =>
      match qr.rowsErr with
      | some e => .error (.forwarded e)
      | none => .ok items

/-- The query built by `MysqlPersistence.GetListByFilter`. -/
def getListByFilterQuery (schemaName tableName filter sort selection : String) :
    String :=
  let base :=
    if 0 < selection.length then
      "SELECT " ++ selection ++ " FROM " ++ QuotedTableName schemaName tableName
    else "SELECT * FROM " ++ QuotedTableName schemaName tableName
  let q1 := if 0 < filter.length then base ++ (" WHERE " ++ filter) else base
  if 0 < sort.length then q1 ++ (" ORDER BY " ++ sort) else q1

/-- Embeds `MysqlPersistence.GetListByFilter`. -/
def GetListByFilter {R T : Type} (client : String → Except String (QueryRows R))
    (convert : R → Except String T) (terminated : Bool)
    (correlationId schemaName tableName filter sort selection : String) :
    Except PersistenceError (List T) :=
  match client (getListByFilterQuery schemaName tableName filter sort selection) with
  | .error e => .error (.forwarded e)
  | .ok qr =>
    match convertRowsLoop convert terminated correlationId qr.rows [] with
    | .error e => .error e
    | .ok items =>
      match qr.rowsErr with
      | some e => .error (.forwarded e)
      | none => .ok items

/- ## Paging (cdata.PagingParams of pip-services3-commons-gox) -/

/-- Embeds `cdata.PagingParams` from the external pip-services3-commons-gox
dependency: optional skip and take plus the total flag. -/
structure PagingParams where
  skip : Option Int
  take : Option Int
  total : Bool

/-- Embeds `PagingParams.GetSkip` of the commons dependency: the stored skip
bounded below by `minSkip`, or `minSkip` when absent. -/
def PagingParams.GetSkip (c : PagingParams) (minSkip : Int) : Int :=
  match c.skip with
  | none => minSkip
  | some s => if s < minSkip then minSkip else s

/-- Embeds `PagingParams.GetTake` of the commons dependency: the stored take
clamped into `[0, maxTake]`, or `maxTake` when absent. -/
def PagingParams.GetTake (c : PagingParams) (maxTake : Int) : Int :=
  match c.take with
  | none => maxTake
  | some t => if t < 0 then 0 else if t > maxTake then maxTake else t

/-- Embeds `cdata.DataPage`: the returned items and the total, where `none`
models `cdata.EmptyTotalValue` (no total requested). -/
structure DataPage (T : Type) where
  data : List T
  total : Option Int
deriving DecidableEq

/-- Embeds the `MaxPageSize: 100` initialisation in `InheritMysqlPersistence`. -/
def inheritedMaxPageSize : Int := 100

/-- The query built by `MysqlPersistence.GetPageByFilter`: optional selection,
`WHERE` for a non-empty filter, `ORDER BY` for a non-empty sort, always a
`LIMIT` of the resolved take, and an `OFFSET` when the resolved skip is
non-negative. -/
def getPageByFilterQuery (schemaName tableName filter sort selection : String)
    (maxPageSize : Int) (paging : PagingParams) : String :=
  let base :=
    if 0 < selection.length then
      "SELECT " ++ selection ++ " FROM " ++ QuotedTableName schemaName tableName
    else "SELECT * FROM " ++ QuotedTableName schemaName tableName
  let skip := paging.GetSkip (-1)
  let take := paging.GetTake maxPageSize
  let q1 := if 0 < filter.length then base ++ (" WHERE " ++ filter) else base
  let q2 := if 0 < sort.length then q1 ++ (" ORDER BY " ++ sort) else q1
  let q3 := q2 ++ (" LIMIT " ++ toString take)
  if 0 ≤ skip then q3 ++ (" OFFSET " ++ toString skip) else q3

/-- The query built by `MysqlPersistence.GetCountByFilter`. -/
def getCountByFilterQuery (schemaName tableName filter : String) : String :=
  let q := "SELECT COUNT(*) AS count FROM " ++ QuotedTableName schemaName tableName
  if 0 < filter.length then q ++ (" WHERE " ++ filter) else q

/-- Embeds `MysqlPersistence.GetCountByFilter`: scan the first result row's
first value and convert it with `LongConverter.ToLong` (abstracted as
`toLong`), count 0 when there is no row, then surface `rows.Err()`. -/
def GetCountByFilter {R : Type} (client : String → Except String (QueryRows R))
    (scanValue : R → Except String String) (toLong : String → Int)
    (schemaName tableName filter : String) : Except PersistenceError Int :=
  match client (getCountByFilterQuery schemaName tableName filter) with
  | .error e => .error (.forwarded e)
  | .ok qr =>
    match qr.rows with
    | [] =>
      match qr.rowsErr with
      | some e => .error (.forwarded e)
      | none => .ok 0
    | r :: _ =>
      match scanValue r with
      | .error e => .error (.forwarded e)
      | .ok raw =>
        match qr.rowsErr with
        | some e => .error (.forwarded e)
        | none => .ok (toLong raw)

/-- Embeds `MysqlPersistence.GetPageByFilter`: run the page query, convert the
rows (observing termination), and either attach the total computed by
`GetCountByFilter` with the same filter (when `paging.Total` is set) or return
the page without a total after surfacing `rows.Err()`. -/
def GetPageByFilter {R T : Type} (client : String → Except String (QueryRows R))
    (convert : R → Except String T) (scanValue : R → Except String String)
    (toLong : String → Int) (terminated : Bool)
    (correlationId schemaName tableName filter : String) (paging : PagingParams)
    (sort selection : String) (maxPageSize : Int) :
    Except PersistenceError (DataPage T) :=
  match client (getPageByFilterQuery schemaName tableName filter sort selection
      maxPageSize paging) with
  | .error e => .error (.forwarded e)
  | .ok qr =>
    match convertRowsLoop convert terminated correlationId qr.rows [] with
    | .error e => .error e
    | .ok items =>
      if paging.total then
        match GetCountByFilter client scanValue toLong schemaName tableName filter with
        | .error e => .error e
        | .ok count => .ok ⟨items, some count⟩
      else
        match qr.rowsErr with
        | some e => .error (.forwarded e)
        | none => .ok ⟨items, none⟩

/-- The query built by `IdentifiableMysqlPersistence.GetOneById`. -/
def getOneByIdQuery (schemaName tableName : String) : String :=
  "SELECT * FROM " ++ QuotedTableName schemaName tableName ++ " WHERE id=?"

/-- Embeds `IdentifiableMysqlPersistence.GetOneById`: when the cursor yields no
row the zero value of the item type is returned together with `rows.Err()`
(nil on a clean empty result); otherwise the first row is converted. -/
def GetOneById {R T : Type} [Inhabited T]
    (client : String → Except String (QueryRows R)) (convert : R → Except String T)
    (correlationId schemaName tableName : String) : Except PersistenceError T :=
  match client (getOneByIdQuery schemaName tableName) with
  | .error e => .error (.forwarded e)
  | .ok qr =>
    match qr.rows with
    | [] =>
      match qr.rowsErr with
      | some e => .error (.forwarded e)
      | none => .ok default
    | r :: _ =>
      match convert r with
      | .error e => .error (.forwarded e)
      | .ok item => .ok item

/-- Embeds `MysqlPersistence.Clear`: a plain error when the table name is not
set, a constructed CONNECT_FAILED connection error with the driver error as
cause when the DELETE fails, nil otherwise. -/
def Clear {R : Type} (client : String → Except String (QueryRows R))
    (correlationId schemaName tableName : String) : Option PersistenceError :=
  if tableName = "" then some (.built "" "Table name is not defined" "" none)
  else
    match client ("DELETE FROM " ++ QuotedTableName schemaName tableName) with
    | .error e =>
        some (.built "CONNECT_FAILED" "Connection to mysql failed" correlationId (some e))
    | .ok _ => none

lemma zero_lt_length_iff (s : String) : 0 < s.length ↔ s ≠ "" := by
  rw [show s.length = s.data.length from rfl, List.length_pos]
  exact (not_congr (str_eq_empty_iff s)).symm

/-- C9: when the id matches no row (the query succeeds with an empty cursor and
no deferred error), `GetOneById` returns the zero value of the item type with a
nil error: success and not-found differ only in the returned value. -/
theorem c9_getOneById_not_found {R T : Type} [Inhabited T]
    (client : String → Except String (QueryRows R)) (convert : R → Except String T)
    (correlationId schemaName tableName : String)
    (h : client (getOneByIdQuery schemaName tableName) = .ok ⟨[], none⟩) :
    GetOneById client convert correlationId schemaName tableName
      = .ok (default : T) := by
  unfold GetOneById
  rw [h]

/-- Witness for C9: a concrete client with an empty result. -/
theorem c9_getOneById_not_found_witness :
    GetOneById (fun _ => (Except.ok ⟨[], none⟩ : Except String (QueryRows Unit)))
      (fun _ => (Except.ok () : Except String Unit)) "cid" "" "dummies"
      = .ok () := by
  exact @c9_getOneById_not_found Unit Unit _ (fun _ => .ok ⟨[], none⟩)
    (fun _ => .ok ()) "cid" "" "dummies" rfl

lemma convertRowsLoop_terminated {R T : Type} (convert : R → Except String T)
    (correlationId : String) (rows : List R) (acc : List T) (h : rows ≠ []) :
    convertRowsLoop convert true correlationId rows acc
      = .error (queryTerminatedError correlationId) := by
  cases rows with
  | nil => exact absurd rfl h
  | cons r rest => simp [convertRowsLoop]

/-- C5: once the persistence is terminated (the `isTerminated` channel is
closed, so `IsTerminated` reports true), each row-iterating retrieval that
still has rows to read stops with the "query terminated" error carrying the
correlation id, and the loop never invokes the row converter (its outcome does
not depend on the converter at all). -/
theorem c5_terminated_retrievals {R T K : Type}
    (correlationId schemaName tableName filter sort selection : String)
    (ids : List K) (maxPageSize : Int) (paging : PagingParams) :
    (∀ (client : String → Except String (QueryRows R))
        (convert : R → Except String T) (qr : QueryRows R),
      client (getListByIdsQuery schemaName tableName ids.length) = .ok qr →
      qr.rows ≠ [] →
      GetListByIds client convert true correlationId schemaName tableName ids
        = .error (queryTerminatedError correlationId)) ∧
    (∀ (client : String → Except String (QueryRows R))
        (convert : R → Except String T) (scanValue : R → Except String String)
        (toLong : String → Int) (qr : QueryRows R),
      client (getPageByFilterQuery schemaName tableName filter sort selection
          maxPageSize paging) = .ok qr →
      qr.rows ≠ [] →
      GetPageByFilter client convert scanValue toLong true correlationId
          schemaName tableName filter paging sort selection maxPageSize
        = .error (queryTerminatedError correlationId)) ∧
    (∀ (client : String → Except String (QueryRows R))
        (convert : R → Except String T) (qr : QueryRows R),
      client (getListByFilterQuery schemaName tableName filter sort selection) = .ok qr →
      qr.rows ≠ [] →
      GetListByFilter client convert true correlationId schemaName tableName
          filter sort selection
        = .error (queryTerminatedError correlationId)) ∧
    (∀ (rows : List R) (convertA convertB : R → Except String T) (acc : List T),
      convertRowsLoop convertA true correlationId rows acc
        = convertRowsLoop convertB true correlationId rows acc) := by
  refine ⟨?_, ?_, ?_, ?_⟩
  · intro client convert qr hc hr
    unfold GetListByIds
    simp only [hc, convertRowsLoop_terminated convert correlationId qr.rows [] hr]
  · intro client convert scanValue toLong qr hc hr
    unfold GetPageByFilter
    simp only [hc, convertRowsLoop_terminated convert correlationId qr.rows [] hr]
  · intro client convert qr hc hr
    unfold GetListByFilter
    simp only [hc, convertRowsLoop_terminated convert correlationId qr.rows [] hr]
  · intro rows convertA convertB acc
    cases rows with
    | nil => rfl
    | cons r rest =>
      rw [convertRowsLoop_terminated convertA correlationId (r :: rest) acc (by simp),
        convertRowsLoop_terminated convertB correlationId (r :: rest) acc (by simp)]

/-- Witness for C5: a terminated `GetListByIds` over a one-row cursor. -/
theorem c5_terminated_retrievals_witness :
    GetListByIds (fun _ => (Except.ok ⟨[()], none⟩ : Except String (QueryRows Unit)))
      (fun _ => (Except.ok () : Except String Unit)) true "cid" "" "dummies"
      ([] : List Unit)
      = .error (queryTerminatedError "cid") := by
  exact (@c5_terminated_retrievals Unit Unit Unit "cid" "" "dummies" "" "" "" []
      100 ⟨none, none, false⟩).1
    (fun _ => .ok ⟨[()], none⟩) (fun _ => .ok ()) ⟨[()], none⟩ rfl (by simp)

/-- C4 counterexample: with `MaxPageSize` 100 and a requested take of 200,
`GetPageByFilter` builds `LIMIT 100`, not a LIMIT equal to the requested take
(`PagingParams.GetTake` clamps the take to the configured maximum). -/
theorem c4_getPage_limit_counterexample :
    getPageByFilterQuery "" "dummies" "" "" "" 100 ⟨none, some 200, false⟩
      = "SELECT * FROM `dummies` LIMIT 100" ∧
    getPageByFilterQuery "" "dummies" "" "" "" 100 ⟨none, some 200, false⟩
      ≠ "SELECT * FROM `dummies` LIMIT 200" ∧
    PagingParams.GetTake ⟨none, some 200, false⟩ 100 = 100 := by
  refine ⟨by decide, by decide, by decide⟩

/-- C4 (amended): `GetPageByFilter` appends `WHERE` exactly for a non-empty
filter and `ORDER BY` exactly for a non-empty sort, always applies a `LIMIT`
equal to the requested take clamped into `[0, MaxPageSize]` (defaulting to
`MaxPageSize`, initialized to 100, when no take is given), appends an `OFFSET`
exactly when a non-negative skip was requested, and the returned page carries a
total — computed by `GetCountByFilter` with the same filter — exactly when
`paging.Total` is set. -/
theorem c4_getPageByFilter_amended {R T : Type}
    (client : String → Except String (QueryRows R)) (convert : R → Except String T)
    (scanValue : R → Except String String) (toLong : String → Int)
    (terminated : Bool)
    (correlationId schemaName tableName filter sort selection : String)
    (paging : PagingParams) (maxPageSize : Int) :
    getPageByFilterQuery schemaName tableName filter sort selection maxPageSize paging
      = (if 0 < selection.length then
            "SELECT " ++ selection ++ " FROM " ++ QuotedTableName schemaName tableName
          else "SELECT * FROM " ++ QuotedTableName schemaName tableName)
        ++ (if filter = "" then "" else " WHERE " ++ filter)
        ++ (if sort = "" then "" else " ORDER BY " ++ sort)
        ++ (" LIMIT " ++ toString (paging.GetTake maxPageSize))
        ++ (if 0 ≤ paging.GetSkip (-1) then " OFFSET " ++ toString (paging.GetSkip (-1))
            else "") ∧
    (paging.take = none → paging.GetTake maxPageSize = maxPageSize) ∧
    (∀ t, paging.take = some t → 0 ≤ t → t ≤ maxPageSize →
      paging.GetTake maxPageSize = t) ∧
    (∀ t, paging.take = some t → 0 ≤ t → maxPageSize < t →
      paging.GetTake maxPageSize = maxPageSize) ∧
    (∀ t, paging.take = some t → t < 0 → paging.GetTake maxPageSize = 0) ∧
    (0 ≤ paging.GetSkip (-1) ↔ ∃ sk, paging.skip = some sk ∧ 0 ≤ sk) ∧
    inheritedMaxPageSize = 100 ∧
    (∀ page : DataPage T,
      GetPageByFilter client convert scanValue toLong terminated correlationId
          schemaName tableName filter paging sort selection maxPageSize = .ok page →
      (page.total ≠ none ↔ paging.total = true) ∧
      (paging.total = true →
        ∃ c, GetCountByFilter client scanValue toLong schemaName tableName filter
            = .ok c ∧ page.total = some c)) := by
  refine ⟨?_, ?_, ?_, ?_, ?_, ?_, rfl, ?_⟩
  · unfold getPageByFilterQuery
    by_cases hfe : filter = "" <;> by_cases hse : sort = "" <;>
      by_cases hsk : 0 ≤ paging.GetSkip (-1) <;>
        simp [zero_lt_length_iff, hfe, hse, hsk, str_append_assoc]
  · intro h
    simp [PagingParams.GetTake, h]
  · intro t ht h0 hle
    simp only [PagingParams.GetTake, ht]
    split_ifs <;> omega
  · intro t ht h0 hover
    simp only [PagingParams.GetTake, ht]
    split_ifs <;> omega
  · intro t ht hneg
    simp only [PagingParams.GetTake, ht]
    split_ifs <;> omega
  · unfold PagingParams.GetSkip
    cases hsk : paging.skip with
    | none => simp
    | some s =>
      simp only [Option.some.injEq]
      constructor
      · intro h
        refine ⟨s, rfl, ?_⟩
        by_cases hlt : s < -1
        · rw [if_pos hlt] at h; omega
        · rw [if_neg hlt] at h; omega
      · rintro ⟨sk, rfl, hsk0⟩
        rw [if_neg (by omega)]
        omega
  · intro page hp
    unfold GetPageByFilter at hp
    cases hclient : client (getPageByFilterQuery schemaName tableName filter sort
        selection maxPageSize paging) with
    | error e =>
      simp only [hclient] at hp
      exact Except.noConfusion hp
    | ok qr =>
      simp only [hclient] at hp
      cases hloop : convertRowsLoop convert terminated correlationId qr.rows [] with
      | error e =>
        simp only [hloop] at hp
        exact Except.noConfusion hp
      | ok items =>
        simp only [hloop] at hp
        by_cases ht : paging.total = true
        · rw [if_pos ht] at hp
          cases hcount : GetCountByFilter client scanValue toLong schemaName
              tableName filter with
          | error e =>
            rw [hcount] at hp
            exact Except.noConfusion hp
          | ok c =>
            rw [hcount] at hp
            simp only [Except.ok.injEq] at hp
            subst hp
            exact ⟨by simp [ht], fun _ => ⟨c, rfl, rfl⟩⟩
        · rw [if_neg ht] at hp
          cases hre : qr.rowsErr with
          | some e =>
            simp only [hre] at hp
            exact Except.noConfusion hp
          | none =>
            simp only [hre, Except.ok.injEq] at hp
            subst hp
            exact ⟨by simp [ht], fun hcontra => absurd hcontra ht⟩

/-- Witness for C4 (amended): an in-range take is used verbatim, and with
`paging.Total` set the returned page carries the computed total. -/
theorem c4_getPageByFilter_amended_witness :
    PagingParams.GetTake ⟨some 1, some 5, true⟩ 100 = 5 ∧
    ((⟨[], some 0⟩ : DataPage Unit).total ≠ none ↔
      (⟨some 1, some 5, true⟩ : PagingParams).total = true) := by
  have h := @c4_getPageByFilter_amended Unit Unit (fun _ => .ok ⟨[], none⟩)
    (fun _ => .ok ()) (fun _ => .ok "0") (fun _ => 0) false "cid" "" "dummies"
    "" "" "" ⟨some 1, some 5, true⟩ 100
  refine ⟨h.2.2.1 5 rfl (by omega) (by omega), ?_⟩
  exact (h.2.2.2.2.2.2.2 ⟨[], some 0⟩ rfl).1

/- ## Connection open with retry/backoff (connect/MysqlConnection) -/

/-- Embeds the constant block of `connect/MysqlConnection.go`. -/
def DefaultConnectTimeout : Int := 1000

/-- Embeds `DefaultIdleTimeout` of `connect/MysqlConnection.go`. -/
def DefaultIdleTimeout : Int := 10000

/-- Embeds `DefaultMaxPoolSize` of `connect/MysqlConnection.go`. -/
def DefaultMaxPoolSize : Int := 3

/-- Embeds `DefaultRetriesCount` of `connect/MysqlConnection.go`. -/
def DefaultRetriesCount : Nat := 3

/-- The CONNECT_FAILED connection error wrapping a driver error
(`cerr.NewConnectionError(...).WithCause(err)`). -/
def connectFailedError (correlationId cause : String) : PersistenceError :=
  .built "CONNECT_FAILED" "Connection to mysql failed" correlationId (some cause)

/-- The CONTEXT_CANCELLED application error built by `waitForRetry` when the
context is cancelled during the backoff wait. -/
def contextCancelledError (correlationId : String) : PersistenceError :=
  .built "CONTEXT_CANCELLED" "request canceled by parent context" correlationId none

/-- Outcome of `MysqlConnection.Open`: the returned error (`none` is a nil
error), the pool stored in `c.Connection`, and the backoff waits completed, in
order and in milliseconds. -/
structure OpenOutcome (P : Type) where
  result : Option PersistenceError
  connection : Option P
  waits : List Int
deriving DecidableEq

/-- Embeds the wait computation of `waitForRetry`:
`DefaultConnectTimeout * int(math.Pow(float64(c.retries-retries), 2))`
milliseconds, where `retries` is the remaining retry count after the decrement
(the power is exact on these small integers). -/
def waitForRetryDuration (cRetries retriesLeft : Nat) : Int :=
  DefaultConnectTimeout * ((cRetries - retriesLeft : Nat) : Int) ^ 2

/-- Embeds the `for retries > 0` loop of `MysqlConnection.Open`: `attempts i`
is the result of the i-th `sql.Open` call (0-based) and `cancelledDuringWait i`
says whether the context is cancelled during the wait that follows the i-th
failed attempt.  On a failure the remaining count is decremented; when it
reaches zero the CONNECT_FAILED error wrapping the driver error is returned,
otherwise the loop backs off (recording the completed wait) and retries. -/
def mysqlOpenLoop {P : Type} (attempts : Nat → Except String P)
    (cancelledDuringWait : Nat → Bool) (correlationId : String) (cRetries : Nat) :
    Nat → Nat → List Int → OpenOutcome P
  | 0, _, ws => ⟨none, none, ws⟩
  | retries + 1, i, ws =>
    match attempts i with
    | .ok pool => ⟨none, some pool, ws⟩
    | .error e =>
      if retries = 0 then
        ⟨some (connectFailedError correlationId e), none, ws⟩
      else if cancelledDuringWait i then
        ⟨some (contextCancelledError correlationId), none, ws⟩
      else
        mysqlOpenLoop attempts cancelledDuringWait correlationId cRetries retries
          (i + 1) (ws ++ [waitForRetryDuration cRetries retries])

/-- Embeds `MysqlConnection.Open`: when the connection resolver fails, the
failure is logged and Open returns a nil error without any `sql.Open` attempt;
otherwise the retry loop runs with the full `DefaultRetriesCount` budget. -/
def MysqlConnectionOpen {P : Type} (resolveResult : Except String String)
    (attempts : Nat → Except String P) (cancelledDuringWait : Nat → Bool)
    (correlationId : String) : OpenOutcome P :=
  match resolveResult with
  | .error _ => ⟨none, none, []⟩
  | .ok _ => mysqlOpenLoop attempts cancelledDuringWait correlationId
      DefaultRetriesCount DefaultRetriesCount 0 []

/-- Embeds `MysqlConnection.IsOpen`: true exactly when `c.Connection` is set. -/
def MysqlConnectionIsOpen {P : Type} (connection : Option P) : Bool :=
  connection.isSome

/-- One unfolding step of the retry loop. -/
lemma mysqlOpenLoop_step {P : Type} (attempts : Nat → Except String P)
    (cancelled : Nat → Bool) (correlationId : String) (cRetries r i : Nat)
    (ws : List Int) :
    mysqlOpenLoop attempts cancelled correlationId cRetries (r + 1) i ws
      = match attempts i with
        | .ok pool => ⟨none, some pool, ws⟩
        | .error e =>
          if r = 0 then
            ⟨some (connectFailedError correlationId e), none, ws⟩
          else if cancelled i then
            ⟨some (contextCancelledError correlationId), none, ws⟩
          else
            mysqlOpenLoop attempts cancelled correlationId cRetries r (i + 1)
              (ws ++ [waitForRetryDuration cRetries r]) := rfl

/-- The loop with fuel `r` starting at attempt `i` only ever consults
`attempts j` for `j < i + r` and `cancelled j` for `j + 1 < i + r`. -/
lemma mysqlOpenLoop_congr {P : Type} (correlationId : String) (cRetries : Nat) :
    ∀ (r i : Nat) (ws : List Int) (a b : Nat → Except String P)
      (ca cb : Nat → Bool),
      (∀ j, i ≤ j → j < i + r → a j = b j) →
      (∀ j, i ≤ j → j + 1 < i + r → ca j = cb j) →
      mysqlOpenLoop a ca correlationId cRetries r i ws
        = mysqlOpenLoop b cb correlationId cRetries r i ws := by
  intro r
  induction r with
  | zero => intro i ws a b ca cb _ _; rfl
  | succ r ih =>
    intro i ws a b ca cb ha hc
    rw [mysqlOpenLoop_step, mysqlOpenLoop_step,
      ← ha i (le_refl i) (by omega)]
    cases hA : a i with
    | ok pool => rfl
    | error e =>
      by_cases hr : r = 0
      · simp [hr]
      · rw [← hc i (le_refl i) (by omega)]
        cases hCA : ca i with
        | true => simp [hr]
        | false =>
          have hrec := ih (i + 1) (ws ++ [waitForRetryDuration cRetries r]) a b ca cb
            (fun j hj1 hj2 => ha j (by omega) (by omega))
            (fun j hj1 hj2 => hc j (by omega) (by omega))
          simp [hr, hrec]

/-- C7: `MysqlConnection.Open` attempts the driver pool at most
`DefaultRetriesCount` (3) times — its outcome only depends on the first three
attempt results and the first two waits; after `k` failed attempts the backoff
wait is `DefaultConnectTimeout * k^2` milliseconds (1000 then 4000); a context
cancellation during a wait aborts with the CONTEXT_CANCELLED error; and when
the last attempt fails it returns the CONNECT_FAILED connection error wrapping
that driver error. -/
theorem c7_open_retry_backoff {P : Type} (correlationId uri : String)
    (attempts : Nat → Except String P) (cancelled : Nat → Bool)
    (e0 e1 e2 : String) (pool : P) :
    (∀ k : Nat, k ≤ DefaultRetriesCount →
      waitForRetryDuration DefaultRetriesCount (DefaultRetriesCount - k)
        = DefaultConnectTimeout * (k : Int) ^ 2) ∧
    (attempts 0 = .error e0 → attempts 1 = .error e1 → attempts 2 = .error e2 →
      cancelled 0 = false → cancelled 1 = false →
      MysqlConnectionOpen (.ok uri) attempts cancelled correlationId
        = ⟨some (connectFailedError correlationId e2), none, [1000, 4000]⟩) ∧
    (attempts 0 = .error e0 → cancelled 0 = true →
      MysqlConnectionOpen (.ok uri) attempts cancelled correlationId
        = ⟨some (contextCancelledError correlationId), none, []⟩) ∧
    (attempts 0 = .error e0 → cancelled 0 = false → attempts 1 = .error e1 →
      cancelled 1 = true →
      MysqlConnectionOpen (.ok uri) attempts cancelled correlationId
        = ⟨some (contextCancelledError correlationId), none, [1000]⟩) ∧
    (attempts 0 = .ok pool →
      MysqlConnectionOpen (.ok uri) attempts cancelled correlationId
        = ⟨none, some pool, []⟩) ∧
    (∀ (attemptsB : Nat → Except String P) (cancelledB : Nat → Bool),
      (∀ i, i < DefaultRetriesCount → attempts i = attemptsB i) →
      (∀ i, i + 1 < DefaultRetriesCount → cancelled i = cancelledB i) →
      MysqlConnectionOpen (.ok uri) attempts cancelled correlationId
        = MysqlConnectionOpen (.ok uri) attemptsB cancelledB correlationId) := by
  refine ⟨?_, ?_, ?_, ?_, ?_, ?_⟩
  · intro k hk
    unfold DefaultRetriesCount at hk
    unfold waitForRetryDuration DefaultRetriesCount DefaultConnectTimeout
    have h3 : 3 - (3 - k) = k := by omega
    rw [h3]
  · intro h0 h1 h2 hc0 hc1
    simp [MysqlConnectionOpen, DefaultRetriesCount, mysqlOpenLoop, h0, h1, h2,
      hc0, hc1, waitForRetryDuration, DefaultConnectTimeout]
  · intro h0 hc0
    simp [MysqlConnectionOpen, DefaultRetriesCount, mysqlOpenLoop, h0, hc0]
  · intro h0 hc0 h1 hc1
    simp [MysqlConnectionOpen, DefaultRetriesCount, mysqlOpenLoop, h0, h1,
      hc0, hc1, waitForRetryDuration, DefaultConnectTimeout]
  · intro h0
    simp [MysqlConnectionOpen, DefaultRetriesCount, mysqlOpenLoop, h0]
  · intro attemptsB cancelledB ha hc
    unfold MysqlConnectionOpen
    exact mysqlOpenLoop_congr correlationId DefaultRetriesCount
      DefaultRetriesCount 0 [] attempts attemptsB cancelled cancelledB
      (fun j hj1 hj2 => ha j (by omega)) (fun j hj1 hj2 => hc j (by omega))

/-- Witness for C7: with every attempt failing and no cancellation, Open stops
after three attempts with CONNECT_FAILED wrapping the last driver error, having
waited 1000 then 4000 milliseconds. -/
theorem c7_open_retry_backoff_witness :
    MysqlConnectionOpen (.ok "mysql:uri")
      (fun _ => (Except.error "boom" : Except String Unit)) (fun _ => false) "cid"
      = ⟨some (connectFailedError "cid" "boom"), none, [1000, 4000]⟩ ∧
    waitForRetryDuration DefaultRetriesCount (DefaultRetriesCount - 2)
      = DefaultConnectTimeout * (2 : Int) ^ 2 := by
  have h := @c7_open_retry_backoff Unit "cid" "mysql:uri"
    (fun _ => Except.error "boom") (fun _ => false) "boom" "boom" "boom" ()
  exact ⟨h.2.1 rfl rfl rfl rfl rfl, h.1 2 (by decide)⟩

/-- C8: when the connection resolver fails, `MysqlConnection.Open` returns a
nil error without ever attempting to open the driver pool (the outcome is a
constant independent of the attempts), and `IsOpen` afterwards still reports
false because no connection was stored. -/
theorem c8_resolver_failure_open_returns_nil {P : Type} (resolveErr : String)
    (attempts : Nat → Except String P) (cancelled : Nat → Bool)
    (correlationId : String) :
    MysqlConnectionOpen (.error resolveErr) attempts cancelled correlationId
      = ⟨none, none, []⟩ ∧
    MysqlConnectionIsOpen
      (MysqlConnectionOpen (.error resolveErr) attempts cancelled
        correlationId).connection = false := by
  exact ⟨rfl, rfl⟩

/-- C6 counterexample: `Clear` does not forward the driver error — it returns a
CONNECT_FAILED connection error it built itself, with the driver error only as
the cause. -/
theorem c6_error_forwarding_counterexample :
    Clear (fun _ => (Except.error "driver failure" : Except String (QueryRows Unit)))
        "123" "" "dummies"
      = some (.built "CONNECT_FAILED" "Connection to mysql failed" "123"
          (some "driver failure")) ∧
    Clear (fun _ => (Except.error "driver failure" : Except String (QueryRows Unit)))
        "123" "" "dummies"
      ≠ some (.forwarded "driver failure") := by
  exact ⟨rfl, by decide⟩

/-- Returned error and opened flag of `MysqlPersistence.Open`. -/
structure PersistenceOpenOutcome where
  result : Option PersistenceError
  opened : Bool
deriving DecidableEq

/-- Embeds `MysqlPersistence.Open` (persistence file, lines 878-924): nil when
already opened; otherwise a local connection is opened first, then the
missing-connection and not-open checks build NO_CONNECTION / CONNECT_FAILED
errors, and a failing `CreateSchema` is wrapped in a CONNECT_FAILED connection
error with the schema error as cause; only the fully successful path sets
`opened`.  (`connectionMissing` is the `c.Connection == nil` test, which the
preceding create-local-connection step makes false in every actual run.) -/
def MysqlPersistenceOpen (alreadyOpened localConnection : Bool)
    (connectionOpenResult : Option PersistenceError)
    (connectionMissing connectionIsOpen : Bool)
    (createSchemaResult : Option String) (correlationId : String) :
    PersistenceOpenOutcome :=
  if alreadyOpened then ⟨none, true⟩
  else
    let err0 : Option PersistenceError :=
      if localConnection then connectionOpenResult else none
    let err1 : Option PersistenceError :=
      match err0 with
      | some e => some e
      | none =>
        if connectionMissing then
          some (.built "NO_CONNECTION" "MySql connection is missing" correlationId none)
        else none
    let err2 : Option PersistenceError :=
      match err1 with
      | some e => some e
      | none =>
        if ¬ connectionIsOpen then
          some (.built "CONNECT_FAILED" "MySql connection is not opened" correlationId none)
        else none
    match err2 with
    | some e => ⟨some e, false⟩
    | none =>
      match createSchemaResult with
      | some e => ⟨some (connectFailedError correlationId e), false⟩
      | none => ⟨none, true⟩

/-- C6 (amended): the row-reading persistence operations (GetOneById,
GetListByIds, GetListByFilter, GetPageByFilter, GetCountByFilter) forward a
failed query's driver error unchanged, but the component does construct some
errors itself: `Clear` wraps a failed DELETE in a CONNECT_FAILED connection
error carrying the driver error only as cause, `MysqlPersistence.Open` wraps
schema-creation failures the same way, `MysqlConnection.Open` suppresses
resolver failures entirely and returns nil, and terminated row iterations
return the constructed "query terminated" error. -/
theorem c6_error_forwarding_amended {R T K P : Type} [Inhabited T]
    (client : String → Except String (QueryRows R)) (convert : R → Except String T)
    (scanValue : R → Except String String) (toLong : String → Int)
    (correlationId schemaName tableName filter sort selection : String)
    (ids : List K) (paging : PagingParams) (maxPageSize : Int)
    (attempts : Nat → Except String P) (cancelled : Nat → Bool) :
    (∀ e, client (getOneByIdQuery schemaName tableName) = .error e →
      GetOneById client convert correlationId schemaName tableName
        = .error (.forwarded e)) ∧
    (∀ e, client (getListByIdsQuery schemaName tableName ids.length) = .error e →
      GetListByIds client convert false correlationId schemaName tableName ids
        = .error (.forwarded e)) ∧
    (∀ e, client (getListByFilterQuery schemaName tableName filter sort selection)
        = .error e →
      GetListByFilter client convert false correlationId schemaName tableName
          filter sort selection
        = .error (.forwarded e)) ∧
    (∀ e, client (getPageByFilterQuery schemaName tableName filter sort selection
          maxPageSize paging) = .error e →
      GetPageByFilter client convert scanValue toLong false correlationId
          schemaName tableName filter paging sort selection maxPageSize
        = .error (.forwarded e)) ∧
    (∀ e, client (getCountByFilterQuery schemaName tableName filter) = .error e →
      GetCountByFilter client scanValue toLong schemaName tableName filter
        = .error (.forwarded e)) ∧
    (tableName ≠ "" →
      ∀ e, client ("DELETE FROM " ++ QuotedTableName schemaName tableName) = .error e →
      Clear client correlationId schemaName tableName
        = some (.built "CONNECT_FAILED" "Connection to mysql failed" correlationId
            (some e))) ∧
    (∀ e (localConnection : Bool),
      MysqlPersistenceOpen false localConnection none false true (some e) correlationId
        = ⟨some (connectFailedError correlationId e), false⟩) ∧
    (∀ resolveErr,
      MysqlConnectionOpen (.error resolveErr) attempts cancelled correlationId
        = ⟨none, none, []⟩) ∧
    (∀ (rows : List R) (acc : List T), rows ≠ [] →
      convertRowsLoop convert true correlationId rows acc
        = .error (queryTerminatedError correlationId)) := by
  refine ⟨?_, ?_, ?_, ?_, ?_, ?_, ?_, fun _ => rfl, ?_⟩
  · intro e he
    unfold GetOneById
    simp only [he]
  · intro e he
    unfold GetListByIds
    simp only [he]
  · intro e he
    unfold GetListByFilter
    simp only [he]
  · intro e he
    unfold GetPageByFilter
    simp only [he]
  · intro e he
    unfold GetCountByFilter
    simp only [he]
  · intro ht e he
    unfold Clear
    rw [if_neg ht]
    simp only [he]
  · intro e localConnection
    cases localConnection <;> rfl
  · intro rows acc hr
    exact convertRowsLoop_terminated convert correlationId rows acc hr

/-- Witness for C6 (amended): a concrete always-failing client, a concrete
schema-creation failure, and a terminated one-row loop. -/
theorem c6_error_forwarding_amended_witness :
    GetOneById (fun _ => (Except.error "boom" : Except String (QueryRows Unit)))
      (fun _ => (Except.ok () : Except String Unit)) "cid" "" "dummies"
      = .error (.forwarded "boom") ∧
    Clear (fun _ => (Except.error "boom" : Except String (QueryRows Unit)))
      "cid" "" "dummies"
      = some (.built "CONNECT_FAILED" "Connection to mysql failed" "cid"
          (some "boom")) ∧
    MysqlPersistenceOpen false true none false true (some "boom") "cid"
      = ⟨some (connectFailedError "cid" "boom"), false⟩ ∧
    convertRowsLoop (fun _ => (Except.ok () : Except String Unit)) true "cid"
        [()] []
      = .error (queryTerminatedError "cid") := by
  have h := @c6_error_forwarding_amended Unit Unit Unit Unit _
    (fun _ => Except.error "boom") (fun _ => Except.ok ())
    (fun _ => Except.ok "0") (fun _ => 0) "cid" "" "dummies" "" "" ""
    ([] : List Unit) ⟨none, none, false⟩ 100
    (fun _ => Except.error "nope") (fun _ => false)
  exact ⟨h.1 "boom" rfl, h.2.2.2.2.2.1 (by decide) "boom" rfl,
    h.2.2.2.2.2.2.1 "boom" true, h.2.2.2.2.2.2.2.2 [()] [] (by simp)⟩
